import Mathlib

/-!
Verification of the native shell glue in `src/apps/desktop/src-tauri/src/main.rs`.

The file under verification registers two path-lookup commands
(`get_app_data_dir`, `get_document_dir`), wires up three plugins, attaches a
one-shot setup hook, and blocks on the host framework's run loop.  We embed
the Rust source shallowly: the host framework's directory lookups become
fields of an `AppHandle` snapshot, Rust's `Result` becomes `Except`, and the
standard library's `to_string_lossy` is modelled by an executable UTF-8
lossy decoder over path bytes.
-/

namespace Unimem

/-- The Unicode replacement character U+FFFD, substituted by lossy UTF-8
decoding for each maximal ill-formed subsequence. -/
def replChar : Char := Char.ofNat 0xFFFD

/-- Is `b` a UTF-8 continuation byte (`0x80..=0xBF`)? -/
def isCont (b : Nat) : Bool := 0x80 ≤ b && b ≤ 0xBF

/-- One step of lossy UTF-8 decoding, modelling Rust's
`String::from_utf8_lossy`: given a lead byte `b` and the remaining bytes,
return the decoded character (or U+FFFD for a maximal ill-formed subpart)
together with the number of extra bytes consumed from `rest`. -/
def utf8DecodeStep (b : Nat) (rest : List Nat) : Char × Nat :=
  if b < 0x80 then
    (Char.ofNat b, 0)
  else if b < 0xC2 then
    (replChar, 0)
  else if b ≤ 0xDF then
    match rest with
    | b1 :: _ =>
      if isCont b1 then (Char.ofNat ((b - 0xC0) * 0x40 + (b1 - 0x80)), 1)
      else (replChar, 0)
    | [] => (replChar, 0)
  else if b ≤ 0xEF then
    let lo1 : Nat := if b = 0xE0 then 0xA0 else 0x80
    let hi1 : Nat := if b = 0xED then 0x9F else 0xBF
    match rest with
    | b1 :: b2 :: _ =>
      if lo1 ≤ b1 && b1 ≤ hi1 then
        if isCont b2 then
          (Char.ofNat ((b - 0xE0) * 0x1000 + (b1 - 0x80) * 0x40 + (b2 - 0x80)), 2)
        else (replChar, 1)
      else (replChar, 0)
    | [b1] =>
      if lo1 ≤ b1 && b1 ≤ hi1 then (replChar, 1) else (replChar, 0)
    | [] => (replChar, 0)
  else if b ≤ 0xF4 then
    let lo1 : Nat := if b = 0xF0 then 0x90 else 0x80
    let hi1 : Nat := if b = 0xF4 then 0x8F else 0xBF
    match rest with
    | b1 :: b2 :: b3 :: _ =>
      if lo1 ≤ b1 && b1 ≤ hi1 then
        if isCont b2 then
          if isCont b3 then
            (Char.ofNat ((b - 0xF0) * 0x40000 + (b1 - 0x80) * 0x1000 +
              (b2 - 0x80) * 0x40 + (b3 - 0x80)), 3)
          else (replChar, 2)
        else (replChar, 1)
      else (replChar, 0)
    | [b1, b2] =>
      if lo1 ≤ b1 && b1 ≤ hi1 then
        (if isCont b2 then (replChar, 2) else (replChar, 1))
      else (replChar, 0)
    | [b1] =>
      if lo1 ≤ b1 && b1 ≤ hi1 then (replChar, 1) else (replChar, 0)
    | [] => (replChar, 0)
  else
    (replChar, 0)

/-- Lossy UTF-8 decoding of a byte list into characters, modelling Rust's
`String::from_utf8_lossy` (each maximal ill-formed subpart yields one
U+FFFD). -/
def utf8Lossy : List Nat → List Char
  | [] => []
  | b :: rest =>
    match utf8DecodeStep b rest, rest with
    | (c, 1), _ :: r => c :: utf8Lossy r
    | (c, 2), _ :: _ :: r => c :: utf8Lossy r
    | (c, 3), _ :: _ :: _ :: r => c :: utf8Lossy r
    | (c, _), r => c :: utf8Lossy r

/-- A filesystem path as reported by the operating system: `PathBuf` wraps
an OS string, here a list of byte values. -/
structure PathBuf where
  bytes : List Nat
deriving DecidableEq

/-- Rust's `Path::to_string_lossy` followed by `.to_string()`: the lossy
textual rendering of the path's bytes, with non-representable byte
sequences replaced by U+FFFD. -/
def PathBuf.to_string_lossy (p : PathBuf) : String :=
  String.mk (utf8Lossy p.bytes)

/-- The host framework's path-lookup error (`tauri::Error`); only its
`Display` rendering is observable in this program. -/
structure TauriError where
  message : String
deriving DecidableEq

/-- Rust's `e.to_string()`: the `Display` rendering of the error. -/
def TauriError.to_string (e : TauriError) : String := e.message

/-- The host framework's path resolver (`app.path()`): a snapshot of the
outcome each directory lookup would report during this invocation. -/
structure PathResolver where
  app_data_dir : Except TauriError PathBuf
  document_dir : Except TauriError PathBuf

/-- The opaque application handle (`tauri::AppHandle`); this program only
ever uses its path resolver. -/
structure AppHandle where
  path : PathResolver

/-- Embedding of the Rust command
`fn get_app_data_dir(app: tauri::AppHandle) -> Result<String, String>`:
`app.path().app_data_dir().map(|p| p.to_string_lossy().to_string()).map_err(|e| e.to_string())`. -/
def get_app_data_dir (app : AppHandle) : Except String String :=
  (app.path.app_data_dir.map (fun p => p.to_string_lossy)).mapError
    (fun e => e.to_string)

/-- Embedding of the Rust command
`fn get_document_dir(app: tauri::AppHandle) -> Result<String, String>`:
`app.path().document_dir().map(|p| p.to_string_lossy().to_string()).map_err(|e| e.to_string())`. -/
def get_document_dir (app : AppHandle) : Except String String :=
  (app.path.document_dir.map (fun p => p.to_string_lossy)).mapError
    (fun e => e.to_string)

/-- The post-processing `get_app_data_dir` applies to its lookup outcome:
the `.map(|p| p.to_string_lossy().to_string()).map_err(|e| e.to_string())`
chain of its body, taken from the source. -/
def appDataPost (r : Except TauriError PathBuf) : Except String String :=
  (r.map (fun p => p.to_string_lossy)).mapError (fun e => e.to_string)

/-- The post-processing `get_document_dir` applies to its lookup outcome:
the `.map(|p| p.to_string_lossy().to_string()).map_err(|e| e.to_string())`
chain of its body, taken from the source. -/
def documentPost (r : Except TauriError PathBuf) : Except String String :=
  (r.map (fun p => p.to_string_lossy)).mapError (fun e => e.to_string)

/-- Observable program state threaded through the stateful embedding:
the stdout log (the only output this program writes), counters of how many
times each host path lookup has been invoked (so retries would be visible),
and an arbitrary component `other` standing for every further piece of
observable state. -/
structure World (σ : Type) where
  appDataCalls : Nat
  documentCalls : Nat
  log : List String
  other : σ

/-- The host-framework call `app.path().app_data_dir()` as a stateful
operation: it reports the snapshot outcome and counts one invocation; it
mutates nothing else. -/
def app_data_dir_op {σ : Type} (app : AppHandle) (w : World σ) :
    Except TauriError PathBuf × World σ :=
  (app.path.app_data_dir, { w with appDataCalls := w.appDataCalls + 1 })

/-- The host-framework call `app.path().document_dir()` as a stateful
operation: it reports the snapshot outcome and counts one invocation; it
mutates nothing else. -/
def document_dir_op {σ : Type} (app : AppHandle) (w : World σ) :
    Except TauriError PathBuf × World σ :=
  (app.path.document_dir, { w with documentCalls := w.documentCalls + 1 })

/-- Rust's `println!`: appends one line to the stdout log. -/
def println {σ : Type} (s : String) (w : World σ) : World σ :=
  { w with log := w.log ++ [s] }

/-- Escaping of one character under Rust's `Debug` formatting of a path
(`{:?}`): quotes and backslashes are escaped. -/
def rustEscapeChar (c : Char) : List Char :=
  if c = '"' then ['\\', '"']
  else if c = '\\' then ['\\', '\\']
  else [c]

/-- Rust's `{:?}` (`Debug`) rendering of a `PathBuf`: its lossy text,
escaped and wrapped in double quotes. -/
def pathDebug (p : PathBuf) : String :=
  "\"" ++ String.mk (((utf8Lossy p.bytes).map rustEscapeChar).flatten) ++ "\""

/-- Stateful embedding of the Rust command `get_app_data_dir`: one
`app.path().app_data_dir()` call, then the pure `.map`/`.map_err` chain of
the source body; the body contains no other effectful operation. -/
def get_app_data_dir_run {σ : Type} (app : AppHandle) (w : World σ) :
    Except String String × World σ :=
  let (r, w1) := app_data_dir_op app w
  ((r.map (fun p => p.to_string_lossy)).mapError (fun e => e.to_string), w1)

/-- Stateful embedding of the Rust command `get_document_dir`: one
`app.path().document_dir()` call, then the pure `.map`/`.map_err` chain of
the source body; the body contains no other effectful operation. -/
def get_document_dir_run {σ : Type} (app : AppHandle) (w : World σ) :
    Except String String × World σ :=
  let (r, w1) := document_dir_op app w
  ((r.map (fun p => p.to_string_lossy)).mapError (fun e => e.to_string), w1)

/-- Embedding of the Rust setup closure passed to `.setup(...)`:
`if let Ok(app_data) = app.path().app_data_dir() { println!("App data directory: {:?}", app_data); } Ok(())`.
The closure's error type `Box<dyn std::error::Error>` is modelled by
`String`. -/
def setupHook {σ : Type} (app : AppHandle) (w : World σ) :
    Except String Unit × World σ :=
  let (r, w1) := app_data_dir_op app w
  match r with
  | Except.ok app_data =>
    (Except.ok (), println ("App data directory: " ++ pathDebug app_data) w1)
  | Except.error _ => (Except.ok (), w1)

/-- The three plugin values registered in `main`; each constructor stands
for the corresponding `init()` value of the named plugin crate. -/
inductive Plugin
  | tauri_plugin_fs
  | tauri_plugin_shell
  | tauri_plugin_dialog
deriving DecidableEq

/-- The command handlers namable in `tauri::generate_handler![...]`. -/
inductive Command
  | get_app_data_dir
  | get_document_dir
deriving DecidableEq

/-- The host framework's application builder (`tauri::Builder`), recording
the configuration this program installs: plugins in registration order, the
invoke-handler command list, and the setup hook. -/
structure Builder (σ : Type) where
  plugins : List Plugin
  handlers : List Command
  setupHook : Option (AppHandle → World σ → Except String Unit × World σ)

/-- `tauri::Builder::default()`: no plugins, no handlers, no setup hook. -/
def Builder.default (σ : Type) : Builder σ :=
  { plugins := [], handlers := [], setupHook := none }

/-- `Builder::plugin`: appends one plugin in call order. -/
def Builder.plugin {σ : Type} (b : Builder σ) (p : Plugin) : Builder σ :=
  { b with plugins := b.plugins ++ [p] }

/-- `Builder::invoke_handler` applied to `tauri::generate_handler![...]`:
installs the given command list as the frontend-callable surface. -/
def Builder.invoke_handler {σ : Type} (b : Builder σ) (hs : List Command) :
    Builder σ :=
  { b with handlers := hs }

/-- `Builder::setup`: installs the one-shot setup hook. -/
def Builder.setup {σ : Type} (b : Builder σ)
    (h : AppHandle → World σ → Except String Unit × World σ) : Builder σ :=
  { b with setupHook := some h }

/-- `Builder::run(context)`: hands control to the host framework's blocking
run loop. The loop's outcome is owned by the framework, so it is an input
`host` of the embedding; `run` reports it back as its `Result<(), tauri::Error>`. -/
def Builder.run {σ : Type} (_ : Builder σ) (host : Except TauriError Unit) :
    Except TauriError Unit :=
  host

/-- The observable fate of the process after `main`. -/
inductive ProcessOutcome
  | completed
  | panicked (msg : String)
deriving DecidableEq

/-- Rust's `Debug` rendering of the host error, as interpolated by
`Result::expect` into its panic message. -/
def TauriError.debugFmt (e : TauriError) : String := e.message

/-- Rust's `Result::expect(msg)`: the value on `Ok`, a panic with
`"msg: {err:?}"` on `Err`. -/
def expect (r : Except TauriError Unit) (msg : String) : ProcessOutcome :=
  match r with
  | Except.ok () => ProcessOutcome.completed
  | Except.error e => ProcessOutcome.panicked (msg ++ ": " ++ e.debugFmt)

/-- The builder value `main` constructs before calling `.run(...)`:
`tauri::Builder::default()` with the three plugins, the invoke handler for
the two commands, and the setup hook, in source order. -/
def mainBuilder (σ : Type) : Builder σ :=
  ((((Builder.default σ).plugin Plugin.tauri_plugin_fs).plugin
        Plugin.tauri_plugin_shell).plugin
      Plugin.tauri_plugin_dialog).invoke_handler
    [Command.get_app_data_dir, Command.get_document_dir]
  |>.setup (fun app w => setupHook app w)

/-- Embedding of the Rust `main`: build the configured application, hand
control to the host's blocking run loop (outcome `host`), and `.expect(...)`
its result. -/
def main (σ : Type) (host : Except TauriError Unit) : ProcessOutcome :=
  expect ((mainBuilder σ).run host) "error while running tauri application"

/-- A sample handle whose app-data lookup yields the path `hi` and whose
documents lookup yields the path `doc`. -/
def appOkHi : AppHandle :=
  ⟨⟨Except.ok ⟨[104, 105]⟩, Except.ok ⟨[100, 111, 99]⟩⟩⟩

/-- A sample handle agreeing with `appOkHi` on the app-data lookup but not
on the documents lookup. -/
def appOkHiOther : AppHandle :=
  ⟨⟨Except.ok ⟨[104, 105]⟩, Except.error ⟨"unavailable"⟩⟩⟩

/-- A sample handle whose two lookups both fail. -/
def appErrBoth : AppHandle :=
  ⟨⟨Except.error ⟨"lookup failed"⟩, Except.error ⟨"lookup failed"⟩⟩⟩

/-- A sample handle whose two lookups succeed with the empty path. -/
def appEmptyPath : AppHandle :=
  ⟨⟨Except.ok ⟨[]⟩, Except.ok ⟨[]⟩⟩⟩

/-- A sample initial world with an empty log. -/
def w0 : World Unit := ⟨0, 0, [], ()⟩

/-- Lossy decoding of a non-empty byte list yields at least one character:
every arm of the decoder emits a character for the lead byte. -/
theorem utf8Lossy_cons_ne_nil (b : Nat) (rest : List Nat) :
    utf8Lossy (b :: rest) ≠ [] := by
  intro h
  rw [utf8Lossy.eq_def] at h
  split at h
  · simp_all
  · split at h <;> simp at h

/-- The lossy rendering of a path with at least one byte is a non-empty
string. -/
theorem to_string_lossy_ne_empty (p : PathBuf) (h : p.bytes ≠ []) :
    p.to_string_lossy ≠ "" := by
  rcases p with ⟨_ | ⟨b, rest⟩⟩
  · exact absurd rfl h
  · intro hempty
    have hdata : utf8Lossy (b :: rest) = [] := by
      have h2 := congrArg String.data hempty
      simpa [PathBuf.to_string_lossy] using h2
    exact utf8Lossy_cons_ne_nil b rest hdata

/-- C1: if the app-data lookup succeeds with path `p`, `get_app_data_dir`
returns `Ok` of the lossy textual rendering of `p`; if it fails with error
`e`, it returns `Err` of the stringified form of `e`. -/
theorem get_app_data_dir_spec (app : AppHandle) :
    (∀ p, app.path.app_data_dir = Except.ok p →
      get_app_data_dir app = Except.ok p.to_string_lossy) ∧
    (∀ e, app.path.app_data_dir = Except.error e →
      get_app_data_dir app = Except.error e.to_string) := by
  constructor <;> intro x hx <;>
    simp [get_app_data_dir, hx, Except.map, Except.mapError]

/-- C1 witness: concrete success and failure invocations of
`get_app_data_dir`. -/
theorem get_app_data_dir_spec_witness :
    get_app_data_dir appOkHi = Except.ok "hi" ∧
    get_app_data_dir appErrBoth = Except.error "lookup failed" :=
  ⟨(get_app_data_dir_spec appOkHi).1 ⟨[104, 105]⟩ rfl,
   (get_app_data_dir_spec appErrBoth).2 ⟨"lookup failed"⟩ rfl⟩

/-- C2: if the documents lookup succeeds with path `p`, `get_document_dir`
returns `Ok` of the lossy textual rendering of `p`; if it fails with error
`e`, it returns `Err` of the stringified form of `e` — the same shape as
`get_app_data_dir`, applied to the documents directory. -/
theorem get_document_dir_spec (app : AppHandle) :
    (∀ p, app.path.document_dir = Except.ok p →
      get_document_dir app = Except.ok p.to_string_lossy) ∧
    (∀ e, app.path.document_dir = Except.error e →
      get_document_dir app = Except.error e.to_string) := by
  constructor <;> intro x hx <;>
    simp [get_document_dir, hx, Except.map, Except.mapError]

/-- C2 witness: concrete success and failure invocations of
`get_document_dir`. -/
theorem get_document_dir_spec_witness :
    get_document_dir appOkHi = Except.ok "doc" ∧
    get_document_dir appErrBoth = Except.error "lookup failed" :=
  ⟨(get_document_dir_spec appOkHi).1 ⟨[100, 111, 99]⟩ rfl,
   (get_document_dir_spec appErrBoth).2 ⟨"lookup failed"⟩ rfl⟩

/-- C3: each lookup command returns `Err` exactly when its underlying
lookup reports failure, and is total: every lookup outcome yields either an
`Ok` string or an `Err` string, never anything else. -/
theorem lookup_commands_err_iff_lookup_fails (app : AppHandle) :
    ((∃ m, get_app_data_dir app = Except.error m) ↔
      (∃ e, app.path.app_data_dir = Except.error e)) ∧
    ((∃ m, get_document_dir app = Except.error m) ↔
      (∃ e, app.path.document_dir = Except.error e)) ∧
    ((∃ s, get_app_data_dir app = Except.ok s) ∨
      (∃ m, get_app_data_dir app = Except.error m)) ∧
    ((∃ s, get_document_dir app = Except.ok s) ∨
      (∃ m, get_document_dir app = Except.error m)) := by
  rcases h1 : app.path.app_data_dir with e1 | p1 <;>
  rcases h2 : app.path.document_dir with e2 | p2 <;>
    simp [get_app_data_dir, get_document_dir, h1, h2, Except.map, Except.mapError]

/-- C4: the stateful embeddings of the two commands leave the log, the
other lookup's call count, and all remaining observable state unchanged,
invoke their own lookup exactly once (no retries), and their result is the
pure value of the command (no validation beyond the conversion chain). -/
theorem lookup_commands_no_side_effects {σ : Type} (app : AppHandle)
    (w : World σ) :
    ((get_app_data_dir_run app w).2.log = w.log ∧
     (get_app_data_dir_run app w).2.other = w.other ∧
     (get_app_data_dir_run app w).2.documentCalls = w.documentCalls ∧
     (get_app_data_dir_run app w).2.appDataCalls = w.appDataCalls + 1 ∧
     (get_app_data_dir_run app w).1 = get_app_data_dir app) ∧
    ((get_document_dir_run app w).2.log = w.log ∧
     (get_document_dir_run app w).2.other = w.other ∧
     (get_document_dir_run app w).2.appDataCalls = w.appDataCalls ∧
     (get_document_dir_run app w).2.documentCalls = w.documentCalls + 1 ∧
     (get_document_dir_run app w).1 = get_document_dir app) := by
  simp [get_app_data_dir_run, get_document_dir_run, app_data_dir_op,
    document_dir_op, get_app_data_dir, get_document_dir]

/-- C5: the setup hook returns `Ok` whether or not the app-data lookup
succeeds; on success it appends exactly one log line with the resolved
directory, and on failure it logs nothing. -/
theorem setup_hook_best_effort_log {σ : Type} (app : AppHandle)
    (w : World σ) :
    (setupHook app w).1 = Except.ok () ∧
    (∀ p, app.path.app_data_dir = Except.ok p →
      (setupHook app w).2.log =
        w.log ++ ["App data directory: " ++ pathDebug p]) ∧
    (∀ e, app.path.app_data_dir = Except.error e →
      (setupHook app w).2.log = w.log) := by
  refine ⟨?_, ?_, ?_⟩
  · rcases h : app.path.app_data_dir with e | p <;>
      simp [setupHook, app_data_dir_op, h, println]
  · intro p hp
    simp [setupHook, app_data_dir_op, hp, println]
  · intro e he
    simp [setupHook, app_data_dir_op, he, println]

/-- C5 witness: the hook on a concrete succeeding handle logs the quoted
directory and returns `Ok`; on a concrete failing handle it logs nothing. -/
theorem setup_hook_best_effort_log_witness :
    (setupHook appOkHi w0).1 = Except.ok () ∧
    (setupHook appOkHi w0).2.log = ["App data directory: \"hi\""] ∧
    (setupHook appErrBoth w0).2.log = [] :=
  ⟨(setup_hook_best_effort_log appOkHi w0).1,
   (setup_hook_best_effort_log appOkHi w0).2.1 ⟨[104, 105]⟩ rfl,
   (setup_hook_best_effort_log appErrBoth w0).2.2 ⟨"lookup failed"⟩ rfl⟩

/-- C6: `main` configures exactly the three plugins in source order, and
exactly the two commands `get_app_data_dir`, `get_document_dir` in that
order, then hands the fully-configured builder to the blocking run loop. -/
theorem main_configures_plugins_and_commands :
    (∀ σ : Type, (mainBuilder σ).plugins =
      [Plugin.tauri_plugin_fs, Plugin.tauri_plugin_shell,
        Plugin.tauri_plugin_dialog]) ∧
    (∀ σ : Type, (mainBuilder σ).handlers =
      [Command.get_app_data_dir, Command.get_document_dir]) ∧
    (∀ σ : Type, (mainBuilder σ).setupHook =
      some (fun app w => setupHook app w)) ∧
    (∀ (σ : Type) (host : Except TauriError Unit),
      main σ host = expect ((mainBuilder σ).run host)
        "error while running tauri application") :=
  ⟨fun _ => rfl, fun _ => rfl, fun _ => rfl, fun _ _ => rfl⟩

/-- C7: if the host run loop reports a startup failure, the process ends
in a panic carrying the diagnostic message, never in silent completion; a
successful run completes normally. -/
theorem main_startup_failure_panics (σ : Type) (e : TauriError) :
    main σ (Except.error e) =
      ProcessOutcome.panicked
        ("error while running tauri application: " ++ e.debugFmt) ∧
    main σ (Except.error e) ≠ ProcessOutcome.completed ∧
    main σ (Except.ok ()) = ProcessOutcome.completed := by
  refine ⟨rfl, ?_, rfl⟩
  intro h
  cases h

/-- C8 counterexample: a handle whose app-data lookup succeeds with the
empty path makes `get_app_data_dir` return `Ok` of the empty string, so a
successful lookup does not always yield a non-empty string. -/
theorem lookup_nonempty_counterexample :
    (appEmptyPath.path.app_data_dir).isOk = true ∧
    get_app_data_dir appEmptyPath = Except.ok "" ∧
    ¬ (∀ app : AppHandle, (app.path.app_data_dir).isOk = true →
        ∃ s, get_app_data_dir app = Except.ok s ∧ s ≠ "") := by
  refine ⟨rfl, rfl, ?_⟩
  intro h
  obtain ⟨s, hs, hne⟩ := h appEmptyPath rfl
  have h1 : (Except.ok "" : Except String String) = Except.ok s :=
    (show get_app_data_dir appEmptyPath = Except.ok "" from rfl).symm.trans hs
  injection h1 with h2
  exact hne h2.symm

/-- C8 amended: whenever a lookup succeeds with a path of at least one
byte, the corresponding command returns `Ok` of a non-empty string; the
command itself adds no emptiness check. -/
theorem lookup_success_nonempty_of_nonempty_path (app : AppHandle) :
    (∀ p, app.path.app_data_dir = Except.ok p → p.bytes ≠ [] →
      ∃ s, get_app_data_dir app = Except.ok s ∧ s ≠ "") ∧
    (∀ p, app.path.document_dir = Except.ok p → p.bytes ≠ [] →
      ∃ s, get_document_dir app = Except.ok s ∧ s ≠ "") := by
  constructor <;> intro p hp hne <;>
    [exact ⟨p.to_string_lossy, (get_app_data_dir_spec app).1 p hp,
      to_string_lossy_ne_empty p hne⟩;
     exact ⟨p.to_string_lossy, (get_document_dir_spec app).1 p hp,
      to_string_lossy_ne_empty p hne⟩]

/-- C8 witness: a concrete succeeding invocation with a two-byte path
yields a non-empty string. -/
theorem lookup_success_nonempty_witness :
    ∃ s, get_app_data_dir appOkHi = Except.ok s ∧ s ≠ "" :=
  (lookup_success_nonempty_of_nonempty_path appOkHi).1 ⟨[104, 105]⟩ rfl
    (by simp)

/-- C9: each command is a function of its own lookup outcome alone: two
handles whose corresponding lookups agree receive equal results. -/
theorem lookup_commands_deterministic (a1 a2 : AppHandle) :
    (a1.path.app_data_dir = a2.path.app_data_dir →
      get_app_data_dir a1 = get_app_data_dir a2) ∧
    (a1.path.document_dir = a2.path.document_dir →
      get_document_dir a1 = get_document_dir a2) := by
  constructor <;> intro h <;> simp [get_app_data_dir, get_document_dir, h]

/-- C9 witness: two concrete handles that agree on the app-data lookup but
differ on the documents lookup receive equal `get_app_data_dir` results. -/
theorem lookup_commands_deterministic_witness :
    get_app_data_dir appOkHi = get_app_data_dir appOkHiOther :=
  (lookup_commands_deterministic appOkHi appOkHiOther).1 rfl

/-- C10: the two commands apply the identical post-processing to their
lookup outcome, and each factors through it — they differ only in which
directory resolver they invoke. -/
theorem commands_same_postprocessing :
    (∀ o : Except TauriError PathBuf, appDataPost o = documentPost o) ∧
    (∀ app : AppHandle,
      get_app_data_dir app = appDataPost app.path.app_data_dir) ∧
    (∀ app : AppHandle,
      get_document_dir app = documentPost app.path.document_dir) :=
  ⟨fun _ => rfl, fun _ => rfl, fun _ => rfl⟩

end Unimem
